import Mathlib

/-!
Shallow embedding of `src/watcher.rs` from the `ra_vfs` repository: a
filesystem-watcher wrapper that spawns one background worker thread which
drains raw debounced events from a `notify` event source, translates the
structural ones into `WatcherChange` values, and forwards them on an
unbounded crossbeam channel; a `DropBomb` lifecycle guard enforces that
`shutdown` is called before the `Watcher` is dropped.

Paths are kept opaque (modelled as `String`); the `notify` error carried by
`DebouncedEvent::Error` is likewise opaque.
-/

namespace RaVfs

/-- Paths are opaque byte/string paths in this core; no validation or
normalization is applied, so `String` suffices as the carrier. -/
abbrev Path : Type := String

/-- The raw event type delivered by the `notify` event source
(`notify::DebouncedEvent`), as matched on in
`WatcherChange::from_debounced_event`. The error payload of the `Error`
variant is kept opaque as a `String` together with the optional path. -/
inductive DebouncedEvent : Type
  | NoticeWrite (path : Path)
  | NoticeRemove (path : Path)
  | Chmod (path : Path)
  | Rescan
  | Create (path : Path)
  | Write (path : Path)
  | Remove (path : Path)
  | Rename (src : Path) (dst : Path)
  | Error (err : String) (path : Option Path)
  deriving DecidableEq, Repr

/-- The semantic change type of the core (`pub enum WatcherChange` in
`src/watcher.rs`). -/
inductive WatcherChange : Type
  | Create (path : Path)
  | Write (path : Path)
  | Remove (path : Path)
  | Rename (src : Path) (dst : Path)
  deriving DecidableEq, Repr

/-- Translation step `WatcherChange::from_debounced_event`
(`src/watcher.rs`, lines 28-47): noise events (`NoticeWrite`,
`NoticeRemove`, `Chmod`, `Rescan`) and `Error` events yield `None`;
structural events are mapped 1:1 to the corresponding `WatcherChange`
variant with the paths passed through unchanged. -/
def WatcherChange.from_debounced_event : DebouncedEvent → Option WatcherChange
  | DebouncedEvent.NoticeWrite _ => none
  | DebouncedEvent.NoticeRemove _ => none
  | DebouncedEvent.Chmod _ => none
  | DebouncedEvent.Rescan => none
  | DebouncedEvent.Create path => some (WatcherChange.Create path)
  | DebouncedEvent.Write path => some (WatcherChange.Write path)
  | DebouncedEvent.Remove path => some (WatcherChange.Remove path)
  | DebouncedEvent.Rename src dst => some (WatcherChange.Rename src dst)
  | DebouncedEvent.Error _ _ => none

/-- Log levels used by the core: `log::debug!` (normal worker
termination), `log::info!` (clean shutdown), `log::warn!` (discarded
per-path error events), `log::error!` (abnormal worker termination). -/
inductive LogLevel : Type
  | debug
  | info
  | warn
  | error
  deriving DecidableEq, Repr

/-- One emitted log line: a level and a message. -/
structure LogMsg : Type where
  level : LogLevel
  msg : String
  deriving DecidableEq, Repr

/-- Log lines emitted by `WatcherChange::from_debounced_event` as a side
effect: the `Error(err, path)` arm runs
`log::warn!("watch error {}, {:?}", err, path)`; every other arm logs
nothing. -/
def fromDebouncedEventLogs : DebouncedEvent → List LogMsg
  | DebouncedEvent.Error err _ => [⟨LogLevel.warn, "watch error " ++ err⟩]
  | _ => []

/-- The `log::debug!("Watcher stopped ({})", err)` line emitted when
`input_receiver.recv()` returns `Err` (the producer side of the raw-event
channel has closed). -/
def watcherStoppedLog : LogMsg := ⟨LogLevel.debug, "Watcher stopped"⟩

/-- One iteration of the worker loop body for a received event `ev`
(`src/watcher.rs`, lines 56-63): translate via `from_debounced_event`
(which may emit a warn log); on `Some(change)` push it onto the
forwarding channel with `output_sender.send(change).unwrap()` — the send
fails (and the `unwrap` panics, modelled by `none`) exactly when the
consumer side of the unbounded channel has been dropped
(`consumerAlive = false`); on `None` the event is discarded and the loop
continues. Returns the updated (outputs, logs) on the non-panicking
paths. -/
def processEvent (consumerAlive : Bool) (ev : DebouncedEvent)
    (outs : List WatcherChange) (logs : List LogMsg) :
    Option (List WatcherChange × List LogMsg) :=
  match WatcherChange.from_debounced_event ev with
  | some change =>
      if consumerAlive then
        some (outs ++ [change], logs ++ fromDebouncedEventLogs ev)
      else
        none
  | none => some (outs, logs ++ fromDebouncedEventLogs ev)

/-- Final state of the worker thread: it either breaks out of the loop
normally when the raw-event channel closes (`finished`), or panics on a
failed `send(..).unwrap()` (`panicked`). Both record the outputs pushed
and the logs emitted up to that point. -/
inductive WorkerOutcome : Type
  | finished (outputs : List WatcherChange) (logs : List LogMsg)
  | panicked (outputs : List WatcherChange) (logs : List LogMsg)
  deriving DecidableEq, Repr

/-- Whole-run model of the worker loop (`src/watcher.rs`, lines 55-68)
for a finite sequence of raw events delivered before the producer drops:
each event in order is handled by `processEvent`; when the list is
exhausted the `recv` returns `Err`, the loop logs `watcherStoppedLog` at
debug level and breaks. `consumerAlive` records whether the consumer end
of the forwarding channel is still alive for the whole run. -/
def workerRun (consumerAlive : Bool) :
    List DebouncedEvent → List WatcherChange → List LogMsg → WorkerOutcome
  | [], outs, logs => WorkerOutcome.finished outs (logs ++ [watcherStoppedLog])
  | ev :: rest, outs, logs =>
      match processEvent consumerAlive ev outs logs with
      | some (outs', logs') => workerRun consumerAlive rest outs' logs'
      | none => WorkerOutcome.panicked outs logs

/-- Run-status of the worker thread in the small-step model. -/
inductive WorkerStatus : Type
  | running
  | done
  | panicked
  deriving DecidableEq, Repr

/-- State of the worker thread and its two channels in the small-step
model: `input` holds the raw events currently queued in the mpsc channel,
`inputClosed` records whether the producer (the notify watcher) has been
dropped, `output` is the content pushed so far onto the unbounded
forwarding channel, `consumerAlive` records whether the forwarding
channel's receiver is still alive, and `logs`/`status` track the worker's
log output and run-status. -/
structure WorkerState : Type where
  input : List DebouncedEvent
  inputClosed : Bool
  consumerAlive : Bool
  output : List WatcherChange
  logs : List LogMsg
  status : WorkerStatus
  deriving DecidableEq, Repr

/-- One step of the worker loop in the small-step model: a running worker
with a queued event handles it via `processEvent` (panicking if the send
unwrap fails); a running worker with an empty, closed input channel
receives `Err`, logs the debug stop message and terminates; a running
worker with an empty, open input channel blocks on `recv` (no step,
`none`); a terminated worker takes no step. -/
def step (s : WorkerState) : Option WorkerState :=
  match s.status with
  | WorkerStatus.running =>
      match s.input with
      | ev :: rest =>
          match processEvent s.consumerAlive ev s.output s.logs with
          | some (outs', logs') =>
              some { s with input := rest, output := outs', logs := logs' }
          | none =>
              some { s with input := rest, status := WorkerStatus.panicked }
      | [] =>
          if s.inputClosed then
            some { s with logs := s.logs ++ [watcherStoppedLog],
                          status := WorkerStatus.done }
          else
            none
  | _ => none

/-- Handle to the underlying notify event source
(`RecommendedWatcher`): it records the roots registered via
`watch(root, RecursiveMode::Recursive)`. Dropping this handle closes the
producer side of the worker's raw-event channel. -/
structure SourceHandle : Type where
  roots : List Path
  deriving DecidableEq, Repr

/-- Error propagated out of `notify::watcher(..)` by the `?` in
`Watcher::new` (a `Box<std::error::Error>`, kept opaque). -/
structure SourceInitError : Type where
  msg : String
  deriving DecidableEq, Repr

/-- The `Watcher` struct of `src/watcher.rs`: the receiving end of the
unbounded forwarding channel, the notify watcher handle, the worker
thread handle (modelled by the worker's state), and the `DropBomb`
lifecycle guard (modelled by its armed flag). -/
structure Watcher : Type where
  source : SourceHandle
  worker : WorkerState
  bombArmed : Bool
  deriving DecidableEq, Repr

/-- Worker state installed by `thread::spawn` in `Watcher::new`: the
freshly created mpsc channel is empty and open, the forwarding channel's
consumer (owned by the returned `Watcher`) is alive, nothing has been
pushed or logged, and the loop is running. -/
def initialWorkerState : WorkerState :=
  { input := [], inputClosed := false, consumerAlive := true,
    output := [], logs := [], status := WorkerStatus.running }

/-- Model of `Watcher::new` (`src/watcher.rs`, lines 51-75). The call to
`notify::watcher(input_sender, Duration::from_millis(250))` is the only
fallible step and its result is taken as input; `?` propagates its error
before `thread::spawn` runs. The second component counts the threads
spawned by the call (0 on the error path, 1 on success). On success the
returned `Watcher` holds the source handle, a freshly spawned running
worker, and an armed `DropBomb`. -/
def Watcher.new (sourceInit : Except SourceInitError SourceHandle) :
    Except SourceInitError Watcher × Nat :=
  match sourceInit with
  | Except.error e => (Except.error e, 0)
  | Except.ok h =>
      (Except.ok { source := h, worker := initialWorkerState, bombArmed := true }, 1)

/-- Error reported by a `watch` registration call
(a `Box<std::error::Error>` from `self.watcher.watch(..)`, kept
opaque). -/
structure WatchRegistrationError : Type where
  msg : String
  deriving DecidableEq, Repr

/-- Model of `Watcher::watch` (`src/watcher.rs`, lines 78-81): the
registration is delegated to the event source, whose verdict is taken as
input; on success the root is recorded in the source handle, on failure
`?` propagates the error and nothing changes. The lifecycle guard and the
worker are untouched either way. -/
def Watcher.watch (w : Watcher) (root : Path)
    (reg : Except WatchRegistrationError Unit) :
    Except WatchRegistrationError Unit × Watcher :=
  match reg with
  | Except.error e => (Except.error e, w)
  | Except.ok _ =>
      (Except.ok (), { w with source := { roots := w.source.roots ++ [root] } })

/-- Model of `Watcher::change_receiver` (`src/watcher.rs`, lines 83-85):
returns a read-only view of the forwarding channel's receiving end, i.e.
the sequence of pushed changes. -/
def Watcher.change_receiver (w : Watcher) : List WatcherChange :=
  w.worker.output

/-- Side effects performed by `Watcher::shutdown`, in program order. -/
inductive ShutdownEffect : Type
  | defuseBomb
  | dropSource
  | joinWorker
  deriving DecidableEq, Repr

/-- Payload of the `Err` returned by `thread::join` when the worker
thread panicked (`thread::Result<()>`), kept opaque. -/
structure WorkerPanicError : Type where
  deriving DecidableEq, Repr

/-- Result of `Watcher::shutdown`: the effect trace (in execution order),
the `thread::Result<()>` returned to the caller, the state of the
lifecycle guard after the call, the joined worker's final state, and the
log line emitted by the final `match`. -/
structure ShutdownResult : Type where
  effects : List ShutdownEffect
  result : Except WorkerPanicError Unit
  finalBombArmed : Bool
  finalWorker : WorkerState
  log : LogMsg
  deriving Repr

/-- Join of the worker thread after the raw-event channel has closed:
the worker drains the remaining queued events and breaks, modelled by
`workerRun` applied to the pending input, and the resulting outcome is
written back into the state with the matching status. -/
def joinWorkerState (s : WorkerState) : WorkerState :=
  match workerRun s.consumerAlive s.input s.output s.logs with
  | WorkerOutcome.finished outs logs =>
      { s with input := [], inputClosed := true, output := outs, logs := logs,
               status := WorkerStatus.done }
  | WorkerOutcome.panicked outs logs =>
      { s with input := [], inputClosed := true, output := outs, logs := logs,
               status := WorkerStatus.panicked }

/-- Model of `Watcher::shutdown` (`src/watcher.rs`, lines 87-96), in
program order: (1) `self.bomb.defuse()` disarms the guard; (2)
`drop(self.watcher)` destroys the event-source handle, closing the
producer side of the worker's raw-event channel; (3) `self.thread.join()`
blocks until the worker terminates, returning `Ok(())` when it broke out
of the loop normally and `Err(_)` when it panicked; finally the outcome
is logged at info level on `Ok` and error level on `Err`, and the join
result is returned. -/
def Watcher.shutdown (w : Watcher) : ShutdownResult :=
  let joined := joinWorkerState w.worker
  let res : Except WorkerPanicError Unit :=
    match joined.status with
    | WorkerStatus.panicked => Except.error ⟨⟩
    | _ => Except.ok ()
  { effects := [ShutdownEffect.defuseBomb, ShutdownEffect.dropSource,
                ShutdownEffect.joinWorker],
    result := res,
    finalBombArmed := false,
    finalWorker := joined,
    log := match res with
           | Except.ok _ => ⟨LogLevel.info, "... Watcher terminated with ok"⟩
           | Except.error _ => ⟨LogLevel.error, "... Watcher terminated with err"⟩ }

/-- Outcome of destroying a `Watcher` value outside `shutdown`: the
`DropBomb` field's `Drop` impl panics (aborts) when still armed, and is a
no-op when defused. -/
def dropWatcher (w : Watcher) : Bool :=
  w.bombArmed

/-- With the consumer side of the forwarding channel alive, the worker
loop never panics: it finishes with the translated events appended, in
order, to whatever was already pushed. -/
theorem workerRun_true_outputs (evs : List DebouncedEvent) :
    ∀ (outs : List WatcherChange) (logs : List LogMsg),
    ∃ logs2, workerRun true evs outs logs =
      WorkerOutcome.finished
        (outs ++ evs.filterMap WatcherChange.from_debounced_event) logs2 := by
  induction evs with
  | nil =>
      intro outs logs
      exact ⟨logs ++ [watcherStoppedLog], by simp [workerRun]⟩
  | cons ev rest ih =>
      intro outs logs
      cases h : WatcherChange.from_debounced_event ev with
      | some c =>
          obtain ⟨l2, hl⟩ := ih (outs ++ [c]) (logs ++ fromDebouncedEventLogs ev)
          refine ⟨l2, ?_⟩
          have hstep : workerRun true (ev :: rest) outs logs
              = workerRun true rest (outs ++ [c]) (logs ++ fromDebouncedEventLogs ev) := by
            simp [workerRun, processEvent, h]
          rw [hstep, hl, List.filterMap_cons, h]
          simp
      | none =>
          obtain ⟨l2, hl⟩ := ih outs (logs ++ fromDebouncedEventLogs ev)
          refine ⟨l2, ?_⟩
          simp only [workerRun, processEvent, h, hl, List.filterMap_cons]

/-- Claim C1: every raw structural event (create, write, remove, rename)
carrying path(s) is translated by `from_debounced_event` to the `Change`
value of the corresponding variant with the path(s) passed through
unchanged — no validation or normalization is applied. -/
theorem structural_events_translate_one_to_one (p q : Path) :
    WatcherChange.from_debounced_event (DebouncedEvent.Create p)
      = some (WatcherChange.Create p) ∧
    WatcherChange.from_debounced_event (DebouncedEvent.Write p)
      = some (WatcherChange.Write p) ∧
    WatcherChange.from_debounced_event (DebouncedEvent.Remove p)
      = some (WatcherChange.Remove p) ∧
    WatcherChange.from_debounced_event (DebouncedEvent.Rename p q)
      = some (WatcherChange.Rename p q) :=
  ⟨rfl, rfl, rfl, rfl⟩

/-- Claim C2: for every finite sequence of raw events delivered before
the source closes, the worker (with the consumer end alive, as the
`Watcher` guarantees) pushes onto the unbounded forwarding channel
exactly the translation of the input sequence with noise and error
events filtered out (`List.filterMap from_debounced_event`), in the same
relative order, losing nothing and never panicking. -/
theorem worker_forwards_translation_in_order (evs : List DebouncedEvent) :
    ∃ logs2, workerRun true evs [] [] =
      WorkerOutcome.finished
        (evs.filterMap WatcherChange.from_debounced_event) logs2 := by
  obtain ⟨l2, hl⟩ := workerRun_true_outputs evs [] []
  exact ⟨l2, by simpa using hl⟩

/-- Claim C6: every noise-class raw event (pending-write notice,
pending-remove notice, permission/attribute-only change, rescan marker)
translates to no `Change`, and the worker loop pushes zero events and
just moves on when it receives one. -/
theorem noise_events_produce_no_change (p : Path) (rest : List DebouncedEvent)
    (outs : List WatcherChange) (logs : List LogMsg) :
    WatcherChange.from_debounced_event (DebouncedEvent.NoticeWrite p) = none ∧
    WatcherChange.from_debounced_event (DebouncedEvent.NoticeRemove p) = none ∧
    WatcherChange.from_debounced_event (DebouncedEvent.Chmod p) = none ∧
    WatcherChange.from_debounced_event DebouncedEvent.Rescan = none ∧
    workerRun true (DebouncedEvent.NoticeWrite p :: rest) outs logs
      = workerRun true rest outs logs ∧
    workerRun true (DebouncedEvent.NoticeRemove p :: rest) outs logs
      = workerRun true rest outs logs ∧
    workerRun true (DebouncedEvent.Chmod p :: rest) outs logs
      = workerRun true rest outs logs ∧
    workerRun true (DebouncedEvent.Rescan :: rest) outs logs
      = workerRun true rest outs logs := by
  refine ⟨rfl, rfl, rfl, rfl, ?_, ?_, ?_, ?_⟩ <;>
    simp [workerRun, processEvent, WatcherChange.from_debounced_event,
      fromDebouncedEventLogs]

/-- Claim C7: an error-carrying raw event is logged at warning level and
discarded — it yields no `Change`, does not terminate the loop, and the
structural events after it still flow through in order, the run ending in
the normal finished state. -/
theorem error_events_logged_and_discarded (e : String) (p : Option Path)
    (rest : List DebouncedEvent) (outs : List WatcherChange) (logs : List LogMsg) :
    WatcherChange.from_debounced_event (DebouncedEvent.Error e p) = none ∧
    fromDebouncedEventLogs (DebouncedEvent.Error e p)
      = [⟨LogLevel.warn, "watch error " ++ e⟩] ∧
    workerRun true (DebouncedEvent.Error e p :: rest) outs logs
      = workerRun true rest outs (logs ++ [⟨LogLevel.warn, "watch error " ++ e⟩]) ∧
    (∃ logs2, workerRun true (DebouncedEvent.Error e p :: rest) outs logs
      = WorkerOutcome.finished
          (outs ++ rest.filterMap WatcherChange.from_debounced_event) logs2) := by
  refine ⟨rfl, rfl, ?_, ?_⟩
  · simp [workerRun, processEvent, WatcherChange.from_debounced_event,
      fromDebouncedEventLogs]
  · obtain ⟨l2, hl⟩ :=
      workerRun_true_outputs rest outs (logs ++ [⟨LogLevel.warn, "watch error " ++ e⟩])
    refine ⟨l2, ?_⟩
    simpa [workerRun, processEvent, WatcherChange.from_debounced_event,
      fromDebouncedEventLogs] using hl

/-- Claim C3: `shutdown` performs, in order, (1) defusing the lifecycle
guard, (2) dropping the event-source handle (closing the worker's
raw-event channel), (3) joining the worker thread; it returns `Ok(())`
exactly when the worker run finished via the normal closed-channel path
and `Err` exactly when the worker panicked. -/
theorem shutdown_steps_and_result (w : Watcher) :
    (Watcher.shutdown w).effects
      = [ShutdownEffect.defuseBomb, ShutdownEffect.dropSource,
         ShutdownEffect.joinWorker] ∧
    (Watcher.shutdown w).result
      = (match workerRun w.worker.consumerAlive w.worker.input
            w.worker.output w.worker.logs with
         | WorkerOutcome.finished _ _ => Except.ok ()
         | WorkerOutcome.panicked _ _ => Except.error ⟨⟩) := by
  refine ⟨rfl, ?_⟩
  cases h : workerRun w.worker.consumerAlive w.worker.input
      w.worker.output w.worker.logs with
  | finished o l => simp [Watcher.shutdown, joinWorkerState, h]
  | panicked o l => simp [Watcher.shutdown, joinWorkerState, h]

/-- Claim C4: the lifecycle guard is armed by `new`, left untouched by
`watch` (success or failure), disarmed by `shutdown`, and destroying a
`Watcher` raises the abort diagnostic exactly when the guard is still
armed. -/
theorem lifecycle_guard_armed_until_shutdown (h : SourceHandle) (w : Watcher)
    (root : Path) (reg : Except WatchRegistrationError Unit) :
    (Watcher.new (Except.ok h)).1
      = Except.ok { source := h, worker := initialWorkerState, bombArmed := true } ∧
    ((Watcher.watch w root reg).2).bombArmed = w.bombArmed ∧
    (Watcher.shutdown w).finalBombArmed = false ∧
    (dropWatcher w = true ↔ w.bombArmed = true) := by
  refine ⟨rfl, ?_, rfl, Iff.rfl⟩
  cases reg <;> rfl

/-- Claim C5: when event-source construction fails, `Watcher::new`
propagates that error and spawns no thread; a worker thread is spawned
exactly when construction succeeds. -/
theorem source_init_failure_spawns_no_thread (e : SourceInitError)
    (h : SourceHandle) (init : Except SourceInitError SourceHandle) :
    Watcher.new (Except.error e) = (Except.error e, 0) ∧
    (Watcher.new (Except.ok h)).2 = 1 ∧
    (Watcher.new init).2
      = (match init with
         | Except.ok _ => 1
         | Except.error _ => 0) := by
  refine ⟨rfl, rfl, ?_⟩
  cases init <;> rfl

/-- Claim C8: a step that takes the worker from running to done happens
only when the raw-event channel is empty and its producer side has
closed, and that step logs the stop message at debug level (an
informational message, not an error). -/
theorem worker_terminates_only_on_closed_channel (s s2 : WorkerState)
    (hstep : step s = some s2) (hdone : s2.status = WorkerStatus.done) :
    s.status = WorkerStatus.running ∧ s.input = [] ∧ s.inputClosed = true ∧
    s2.logs = s.logs ++ [watcherStoppedLog] ∧
    watcherStoppedLog.level = LogLevel.debug ∧
    watcherStoppedLog.level ≠ LogLevel.error := by
  obtain ⟨input, ic, ca, out, lg, st⟩ := s
  obtain ⟨i2, ic2, ca2, o2, l2, st2⟩ := s2
  cases st
  case done => simp [step] at hstep
  case panicked => simp [step] at hstep
  case running =>
    cases input with
    | cons ev rest =>
        cases hpe : processEvent ca ev out lg with
        | some pr =>
            obtain ⟨o3, l3⟩ := pr
            simp [step, hpe] at hstep
            simp_all
        | none =>
            simp [step, hpe] at hstep
            simp_all
    | nil =>
        cases ic with
        | false => simp [step] at hstep
        | true =>
            simp [step] at hstep
            simp_all
            decide

/-- Closed instance of the claim-C8 theorem: the step out of the state
with an empty, closed input channel is the terminating one. -/
theorem worker_terminates_only_on_closed_channel_witness :
    WorkerState.status ⟨[], true, true, [], [], WorkerStatus.running⟩
      = WorkerStatus.running ∧
    WorkerState.input ⟨[], true, true, [], [], WorkerStatus.running⟩ = [] ∧
    WorkerState.inputClosed ⟨[], true, true, [], [], WorkerStatus.running⟩ = true ∧
    WorkerState.logs ⟨[], true, true, [], [watcherStoppedLog], WorkerStatus.done⟩
      = WorkerState.logs ⟨[], true, true, [], [], WorkerStatus.running⟩
          ++ [watcherStoppedLog] ∧
    watcherStoppedLog.level = LogLevel.debug ∧
    watcherStoppedLog.level ≠ LogLevel.error :=
  worker_terminates_only_on_closed_channel
    ⟨[], true, true, [], [], WorkerStatus.running⟩
    ⟨[], true, true, [], [watcherStoppedLog], WorkerStatus.done⟩
    (by rfl) (by rfl)

/-- Claim C9: if the consumer side of the forwarding channel has been
dropped, the worker's `send(..).unwrap()` on the next translated change
panics (neither continuing nor silently dropping the event); under the
precondition that the consumer outlives the worker, every run finishes
normally, so the panic branch is unreachable. -/
theorem send_failure_is_fatal (ev : DebouncedEvent) (c : WatcherChange)
    (htr : WatcherChange.from_debounced_event ev = some c)
    (rest : List DebouncedEvent) (outs : List WatcherChange) (logs : List LogMsg) :
    workerRun false (ev :: rest) outs logs = WorkerOutcome.panicked outs logs ∧
    (∀ (evs : List DebouncedEvent) (o : List WatcherChange) (l : List LogMsg),
      ∃ o2 l2, workerRun true evs o l = WorkerOutcome.finished o2 l2) := by
  constructor
  · simp [workerRun, processEvent, htr]
  · intro evs o l
    obtain ⟨l2, hl⟩ := workerRun_true_outputs evs o l
    exact ⟨_, l2, hl⟩

/-- Closed instance of the claim-C9 theorem at a concrete create
event. -/
theorem send_failure_is_fatal_witness :
    workerRun false [DebouncedEvent.Create "a"] [] []
      = WorkerOutcome.panicked [] [] ∧
    (∀ (evs : List DebouncedEvent) (o : List WatcherChange) (l : List LogMsg),
      ∃ o2 l2, workerRun true evs o l = WorkerOutcome.finished o2 l2) :=
  send_failure_is_fatal (DebouncedEvent.Create "a") (WatcherChange.Create "a")
    rfl [] [] []

/-- Claim C10: `shutdown` disarms the lifecycle guard before joining the
worker (defuse strictly precedes join in the effect trace), the guard
ends disarmed on every path — the worker-panic error path included, since
the final armed state is false for every watcher — and destroying the
consumed watcher's remains afterwards raises no abort diagnostic. -/
theorem shutdown_disarms_guard_before_join (w : Watcher) :
    List.indexOf ShutdownEffect.defuseBomb (Watcher.shutdown w).effects
      < List.indexOf ShutdownEffect.joinWorker (Watcher.shutdown w).effects ∧
    (Watcher.shutdown w).finalBombArmed = false ∧
    dropWatcher { w with bombArmed := (Watcher.shutdown w).finalBombArmed }
      = false := by
  have he : (Watcher.shutdown w).effects
      = [ShutdownEffect.defuseBomb, ShutdownEffect.dropSource,
         ShutdownEffect.joinWorker] := rfl
  refine ⟨?_, rfl, rfl⟩
  rw [he]
  decide

end RaVfs
